import Mathlib

/- Verification development for the pymer4 repository: a shallow embedding of
the conda_upload.sh packaging script and of the statistical utility layer
(permutation tests, bootstrap, model fitting wrappers) described by the
project documentation, together with theorems settling the specification
claims against these definitions. -/

namespace Pymer4

/-! ## conda_upload.sh: version extraction and label logic

The script computes `mmp`, the numeric `Major.Minor.Patch` portion of the
package version, with `sed -n "s/\(\([0-9]\+\.\)\{1,2\}[0-9]\+\).*/\1/p"`.
We embed the exact POSIX semantics of this particular pattern: find the
leftmost position where `([0-9]+\.){1,2}[0-9]+` matches, take the longest
such match there, and replace the match together with the trailing `.*`
(which always reaches the end of the line) by the captured group. -/

/-- Longest prefix match of the basic regular expression
`\([0-9]\+\.\)\{1,2\}[0-9]\+` at the head of the character list: one or two
groups of digits-then-dot followed by a final digit run.  Returns the matched
characters and the remainder, or `none` when the pattern does not match here.
Digit runs are forced maximal because the character after each run must be a
literal dot. -/
def matchNum (s : List Char) : Option (List Char × List Char) :=
  match s.span Char.isDigit with
  | (r1, t1) =>
    if r1.isEmpty then none
    else
      match t1 with
      | '.' :: t2 =>
        match t2.span Char.isDigit with
        | (r2, t3) =>
          if r2.isEmpty then none
          else
            match t3 with
            | '.' :: t4 =>
              match t4.span Char.isDigit with
              | (r3, t5) =>
                if r3.isEmpty then some (r1 ++ ['.'] ++ r2, t3)
                else some (r1 ++ ['.'] ++ r2 ++ ['.'] ++ r3, t5)
            | _ => some (r1 ++ ['.'] ++ r2, t3)
      | _ => none

/-- Leftmost match of `matchNum` inside a character list: returns the prefix
before the match, the match, and the remainder after the match. -/
def findNum : List Char → Option (List Char × List Char × List Char)
  | [] => none
  | c :: cs =>
    match matchNum (c :: cs) with
    | some (m, rest) => some ([], m, rest)
    | none =>
      match findNum cs with
      | some (p, m, rest) => some (c :: p, m, rest)
      | none => none

/-- The `mmp` variable of conda_upload.sh: output of
`sed -n "s/\(\([0-9]\+\.\)\{1,2\}[0-9]\+\).*/\1/p"` on the version string.
When the pattern matches, sed prints the line with the matched region (which
extends to the end of the line because of the trailing `.*`) replaced by the
captured numeric portion; when it does not match, `-n` suppresses output and
the shell variable is empty. -/
def sedMmp (v : String) : String :=
  match findNum v.toList with
  | some (p, m, _) => String.mk (p ++ m)
  | none => ""

/-- Spec-form predicate, stated from the claim's words rather than from the
script: the version string consists of exactly three nonempty digit runs
separated by dots, `Major.Minor.Patch`, with nothing else. Used to compare
the script's actual acceptance condition against the documented one. -/
def isVersionMMP (v : String) : Bool :=
  match v.toList.span Char.isDigit with
  | (d1, '.' :: t1) =>
    match t1.span Char.isDigit with
    | (d2, '.' :: t2) =>
      match t2.span Char.isDigit with
      | (d3, t3) => !d1.isEmpty && !d2.isEmpty && !d3.isEmpty && t3.isEmpty
    | _ => false
  | _ => false

/-- The `label` computation of conda_upload.sh lines 203-224: start from
`dry-run`; when the version equals its extracted numeric portion, branch
`master` selects `pre-release` and branch `v` + mmp selects `main` (the
second test runs after the first and overrides it). -/
def condaLabel (version branch : String) : String :=
  let mmp := sedMmp version
  if version == mmp then
    let l1 := if branch == "master" then "pre-release" else "dry-run"
    if branch == "v" ++ mmp then "main" else l1
  else "dry-run"

/-- `ANACONDA_TOKEN=${ANACONDA_TOKEN:-[not_set]}`: an unset or empty token
becomes the sentinel `[not_set]`. -/
def effToken : Option String → String
  | none => "[not_set]"
  | some s => if s == "" then "[not_set]" else s

/-- The upload condition of conda_upload.sh line 249: the anaconda upload
command runs iff the token differs from the sentinel and the label is `main`
or `pre-release`. -/
def shouldUpload (token lbl : String) : Bool :=
  token != "[not_set]" && (lbl == "main" || lbl == "pre-release")

/-- Environment facts the guard block of conda_upload.sh lines 179-201
inspects: the active conda environment name (empty when unset), `$TRAVIS`,
`$TRAVIS_BRANCH`, `$PACKAGE_NAME`, and the words of the tarball listing. -/
structure UploadEnv where
  condaDefaultEnv : String
  travis : String
  travisBranch : String
  packageName : String
  tarballs : List String
deriving DecidableEq

/-- Result of a run of conda_upload.sh: an early `exit` with the given code
from a failed guard, an upload to the given label, or the dry-run path. -/
inductive Outcome where
  | earlyExit : Int → Outcome
  | uploaded : String → Outcome
  | dryRun : Outcome
deriving DecidableEq

/-- The guard block: `exit -1` when no conda environment is active, `exit -2`
when not on TravisCI with `TRAVIS_BRANCH` and `PACKAGE_NAME` set, `exit -3`
when the tarball listing does not hold exactly one word. `none` means all
guards passed. -/
def runGuards (e : UploadEnv) : Option Int :=
  if e.condaDefaultEnv == "" then some (-1)
  else if e.travis != "true" || e.travisBranch == "" || e.packageName == "" then some (-2)
  else if e.tarballs.length != 1 then some (-3)
  else none

/-- The script end to end: guards first, then label computation and the
upload condition.  Conversion and upload are only reached on the `none`
branch of the guards. -/
def runScript (e : UploadEnv) (version : String) (token : Option String) : Outcome :=
  match runGuards e with
  | some c => .earlyExit c
  | none =>
    let lbl := condaLabel version e.travisBranch
    if shouldUpload (effToken token) lbl then .uploaded lbl else .dryRun

/-- The three possible guard failure codes of conda_upload.sh. -/
lemma runGuards_cases (e : UploadEnv) :
    runGuards e = none ∨ runGuards e = some (-1) ∨ runGuards e = some (-2)
      ∨ runGuards e = some (-3) := by
  unfold runGuards
  split
  · exact Or.inr (Or.inl rfl)
  · split
    · exact Or.inr (Or.inr (Or.inl rfl))
    · split
      · exact Or.inr (Or.inr (Or.inr rfl))
      · exact Or.inl rfl

end Pymer4

namespace Pymer4

/-- C3: the claim states the label becomes `pre-release` only when the
version string is exactly of the numeric form `Major.Minor.Patch` and the
branch is `master`.  The script's own header comment documents the same
intent, but the sed pattern `\([0-9]\+\.\)\{1,2\}[0-9]\+` also accepts
two-component versions: with version `1.2` and branch `master` the script
computes label `pre-release` and, with a token set, runs the upload, even
though `1.2` is not of the form `Major.Minor.Patch`. -/
theorem conda_upload_uploads_two_component_version :
    condaLabel "1.2" "master" = "pre-release"
    ∧ isVersionMMP "1.2" = false
    ∧ shouldUpload (effToken (some "token")) (condaLabel "1.2" "master") = true
    ∧ runScript ⟨"pymer4", "true", "master", "pymer4", ["pymer4-1.2-py38.tar.bz2"]⟩
        "1.2" (some "token") = Outcome.uploaded "pre-release" := by
  refine ⟨rfl, rfl, rfl, rfl⟩

/-- C9: the package-upload script terminates with a nonzero exit code before
any conversion or upload whenever a precondition fails: exit -1 when no
conda environment is active, exit -2 when not running under TravisCI with
`TRAVIS_BRANCH` and `PACKAGE_NAME` set, exit -3 when the build directory
does not contain exactly one package tarball; every early exit code is
nonzero and an early exit never uploads. -/
theorem conda_upload_guard_exits (e : UploadEnv) (v : String) (t : Option String) :
    (e.condaDefaultEnv = "" → runScript e v t = Outcome.earlyExit (-1))
    ∧ (e.condaDefaultEnv ≠ "" →
        (e.travis ≠ "true" ∨ e.travisBranch = "" ∨ e.packageName = "") →
        runScript e v t = Outcome.earlyExit (-2))
    ∧ (e.condaDefaultEnv ≠ "" → e.travis = "true" → e.travisBranch ≠ "" →
        e.packageName ≠ "" → e.tarballs.length ≠ 1 →
        runScript e v t = Outcome.earlyExit (-3))
    ∧ (∀ c, runScript e v t = Outcome.earlyExit c → c ≠ 0)
    ∧ (∀ c, runScript e v t = Outcome.earlyExit c →
        ∀ lbl, runScript e v t ≠ Outcome.uploaded lbl) := by
  refine ⟨?_, ?_, ?_, ?_, ?_⟩
  · intro h
    simp [runScript, runGuards, h]
  · intro h1 h2
    have hb1 : (e.condaDefaultEnv == "") = false := beq_eq_false_iff_ne.mpr h1
    have hb2 : (e.travis != "true" || e.travisBranch == "" || e.packageName == "") = true := by
      rcases h2 with h | h | h
      · simp [bne_iff_ne, h]
      · simp [h]
      · simp [h]
    simp [runScript, runGuards, hb1, hb2]
  · intro h1 h2 h3 h4 h5
    have hb1 : (e.condaDefaultEnv == "") = false := beq_eq_false_iff_ne.mpr h1
    have hb2 : (e.travis != "true" || e.travisBranch == "" || e.packageName == "") = false := by
      simp [bne_iff_ne, h2, h3, h4]
    have hb3 : (e.tarballs.length != 1) = true := by simp [bne_iff_ne, h5]
    simp [runScript, runGuards, hb1, hb2, hb3]
  · intro c hc
    rcases runGuards_cases e with hg | hg | hg | hg
    · unfold runScript at hc
      rw [hg] at hc
      by_cases hu : shouldUpload (effToken t) (condaLabel v e.travisBranch) = true
      · simp [hu] at hc
      · simp [hu] at hc
    all_goals
      unfold runScript at hc
      rw [hg] at hc
      simp at hc
      omega
  · intro c hc lbl
    rw [hc]
    intro h
    exact Outcome.noConfusion h

/-- Closed instance of the guard theorem: with no active conda environment
the script exits with code -1. -/
theorem conda_upload_guard_exits_witness :
    runScript ⟨"", "true", "master", "pymer4", ["pymer4-1.2.3-py38.tar.bz2"]⟩
      "1.2.3" none = Outcome.earlyExit (-1) :=
  (conda_upload_guard_exits
    ⟨"", "true", "master", "pymer4", ["pymer4-1.2.3-py38.tar.bz2"]⟩
    "1.2.3" none).1 rfl

/-! ## Resampling utilities

pymer4/stats.py (`perm_test`, `boot_func`) is not under src/; only the
documentation notebooks that call it are.  The definitions below are
modelled from the spec: a permutation test repeatedly shuffles the sample
labels and recomputes the chosen test statistic, a bootstrap repeatedly
resamples the data with replacement and recomputes a user-supplied function,
and the trials are pure, independent and fanned out over an optional worker
pool.  A label shuffle is represented by a permutation of the indices of the
pooled data, and the pseudo-random stream of shuffles or resamples is a
function from the trial number. -/

/-- Modelled from the spec: one label shuffle of a two-sample permutation
trial.  The samples are pooled, the pool is rearranged by the index list
`σ`, and the first `x.length` entries are relabelled as the first sample,
the rest as the second. -/
def applyShuffle (x y : List ℚ) (σ : List ℕ) : List ℚ × List ℚ :=
  ((σ.map (fun j => (x ++ y).getD j 0)).take x.length,
   (σ.map (fun j => (x ++ y).getD j 0)).drop x.length)

/-- The chosen test statistic recomputed on one shuffled relabelling. -/
def shuffleStat (stat : List ℚ → List ℚ → ℚ) (x y : List ℚ) (σ : List ℕ) : ℚ :=
  stat (applyShuffle x y σ).1 (applyShuffle x y σ).2

/-- Modelled from the spec: the `n_perm` permuted test statistics, one per
shuffle of the label assignment. -/
def permStats (stat : List ℚ → List ℚ → ℚ) (x y : List ℚ)
    (σs : ℕ → List ℕ) (nPerm : ℕ) : List ℚ :=
  (List.range nPerm).map (fun i => shuffleStat stat x y (σs i))

/-- Modelled from the spec: the permuted p-value, the share of permuted
statistics at least as extreme (in absolute value) as the observed one. -/
def permPvalue (obs : ℚ) (ps : List ℚ) : ℚ :=
  (((ps.filter (fun s => decide (|obs| ≤ |s|))).length : ℚ)) / ((ps.length : ℚ))

/-- Modelled from the spec: `perm_test` returns the observed test statistic
on the original labelling together with the p-value estimated from `n_perm`
label shuffles. -/
def perm_test (stat : List ℚ → List ℚ → ℚ) (x y : List ℚ)
    (σs : ℕ → List ℕ) (nPerm : ℕ) : ℚ × ℚ :=
  (stat x y, permPvalue (stat x y) (permStats stat x y σs nPerm))

/-- Modelled from the spec: a parallel run of the same permutation test.
The trial numbers are partitioned into chunks, each worker maps its chunk
independently (the trials are pure and share no state), and the per-worker
results are concatenated in order before the p-value is computed. -/
def perm_test_par (stat : List ℚ → List ℚ → ℚ) (x y : List ℚ)
    (σs : ℕ → List ℕ) (chunks : List (List ℕ)) : ℚ × ℚ :=
  (stat x y,
   permPvalue (stat x y)
     ((chunks.map (fun c => c.map (fun i => shuffleStat stat x y (σs i)))).flatten))

/-- Modelled from the spec: one bootstrap draw, sampling with replacement
from `x` at the positions listed in `idx`. -/
def resample (x : List ℚ) (idx : List ℕ) : List ℚ :=
  idx.map (fun j => x.getD j 0)

/-- Modelled from the spec: the bootstrap distribution, the user-supplied
function recomputed on each of `nBoot` resamples of the two inputs. -/
def bootStats (f : List ℚ → List ℚ → ℚ) (x y : List ℚ)
    (ix iy : ℕ → List ℕ) (nBoot : ℕ) : List ℚ :=
  (List.range nBoot).map (fun i => f (resample x (ix i)) (resample y (iy i)))

/-- Modelled from the spec: the 95% percentile confidence interval of a
bootstrap distribution, the 2.5th and 97.5th empirical percentiles of the
sorted trial statistics. -/
def bootCI (ps : List ℚ) : ℚ × ℚ :=
  ((ps.insertionSort (· ≤ ·)).getD (ps.length / 40) 0,
   (ps.insertionSort (· ≤ ·)).getD (39 * ps.length / 40) 0)

/-- Modelled from the spec: `boot_func` returns the user-supplied function
evaluated on the original data together with the bootstrap confidence
interval over `nBoot` resamples with replacement. -/
def boot_func (f : List ℚ → List ℚ → ℚ) (x y : List ℚ)
    (ix iy : ℕ → List ℕ) (nBoot : ℕ) : ℚ × (ℚ × ℚ) :=
  (f x y, bootCI (bootStats f x y ix iy nBoot))

/-- Indexing the pool by the identity range reproduces the pool. -/
lemma map_getD_range (p : List ℚ) :
    (List.range p.length).map (fun j => p.getD j 0) = p := by
  apply List.ext_getElem
  · simp
  · intro i h1 h2
    simp only [List.getElem_map, List.getElem_range]
    exact List.getD_eq_getElem p 0 h2

/-- Indexing by a permutation of the identity range permutes the pool: a
label shuffle is a rearrangement of the pooled sample. -/
lemma shuffle_perm (x y : List ℚ) (σ : List ℕ)
    (h : σ.Perm (List.range (x ++ y).length)) :
    ((applyShuffle x y σ).1 ++ (applyShuffle x y σ).2).Perm (x ++ y) := by
  unfold applyShuffle
  rw [List.take_append_drop]
  have hm := h.map (fun j => (x ++ y).getD j 0)
  rwa [map_getD_range (x ++ y)] at hm

/-- Concrete test statistic used by the closed witnesses: difference of
sample sums. -/
def wStat : List ℚ → List ℚ → ℚ := fun a b => a.sum - b.sum

/-- Concrete shuffle stream used by the closed witnesses. -/
def wShuffles : ℕ → List ℕ := fun i => if i = 0 then [2, 0, 1] else [1, 0, 2]

/-- A second shuffle stream with the same body, used to instantiate
trial-list extensionality at a concrete input. -/
def wAltShuffles : ℕ → List ℕ := fun i => if i = 0 then [2, 0, 1] else [1, 0, 2]

/-- C1: `perm_test` returns the observed test statistic on the original
labelling as its first component, and as its second a permuted p-value
computed from `n_perm` recomputations of the same statistic, each on a
shuffle of the sample labels: every trial's relabelled pair is a
rearrangement of the pooled samples, and the p-value is a proportion
in [0, 1]. -/
theorem perm_test_observed_stat_and_shuffle_pvalue
    (stat : List ℚ → List ℚ → ℚ) (x y : List ℚ) (σs : ℕ → List ℕ) (nPerm : ℕ)
    (hσ : ∀ i, i < nPerm → (σs i).Perm (List.range (x ++ y).length)) :
    (perm_test stat x y σs nPerm).1 = stat x y
    ∧ (perm_test stat x y σs nPerm).2
        = permPvalue (stat x y) (permStats stat x y σs nPerm)
    ∧ (permStats stat x y σs nPerm).length = nPerm
    ∧ (∀ i, i < nPerm →
        ((applyShuffle x y (σs i)).1 ++ (applyShuffle x y (σs i)).2).Perm (x ++ y))
    ∧ (0 < nPerm → 0 ≤ (perm_test stat x y σs nPerm).2
        ∧ (perm_test stat x y σs nPerm).2 ≤ 1) := by
  refine ⟨rfl, rfl, by simp [permStats],
    fun i hi => shuffle_perm x y (σs i) (hσ i hi), ?_⟩
  intro hn
  have hlen : (permStats stat x y σs nPerm).length = nPerm := by simp [permStats]
  have hb : (0 : ℚ) < ((permStats stat x y σs nPerm).length : ℚ) := by
    rw [hlen]
    exact_mod_cast hn
  have key : (perm_test stat x y σs nPerm).2
      = (((permStats stat x y σs nPerm).filter
            (fun s => decide (|stat x y| ≤ |s|))).length : ℚ)
        / ((permStats stat x y σs nPerm).length : ℚ) := rfl
  rw [key]
  constructor
  · exact div_nonneg (Nat.cast_nonneg _) (Nat.cast_nonneg _)
  · rw [div_le_one hb]
    exact_mod_cast List.length_filter_le _ (permStats stat x y σs nPerm)

/-- Closed instance of the permutation-test theorem at a concrete statistic,
samples, shuffle stream and trial count. -/
theorem perm_test_observed_stat_and_shuffle_pvalue_witness :
    (perm_test wStat [1, 2] [3] wShuffles 2).1 = wStat [1, 2] [3] :=
  (perm_test_observed_stat_and_shuffle_pvalue wStat [1, 2] [3] wShuffles 2
    (by decide)).1

/-- C4: a permutation run fanned out over any chunking of the trial numbers
(the worker-pool fan-out, `n_jobs` workers each mapping its chunk of pure,
independent trials) returns exactly the result of the sequential run. -/
theorem perm_test_njobs_invariant
    (stat : List ℚ → List ℚ → ℚ) (x y : List ℚ) (σs : ℕ → List ℕ)
    (nPerm : ℕ) (chunks : List (List ℕ))
    (h : chunks.flatten = List.range nPerm) :
    perm_test_par stat x y σs chunks = perm_test stat x y σs nPerm := by
  unfold perm_test_par perm_test permStats
  rw [← List.map_flatten, h]

/-- Closed instance of the parallel-invariance theorem: two single-trial
chunks give the same answer as the sequential two-trial run. -/
theorem perm_test_njobs_invariant_witness :
    perm_test_par wStat [1, 2] [3] wShuffles [[0], [1]]
      = perm_test wStat [1, 2] [3] wShuffles 2 :=
  perm_test_njobs_invariant wStat [1, 2] [3] wShuffles 2 [[0], [1]] (by decide)

/-- C8: a resampling run with requested trial count `n` produces exactly `n`
trial statistics, the returned p-value and confidence interval are computed
from exactly that list of trial statistics, and the p-value depends on
nothing else: runs whose `n` trial statistics agree return the same
p-value. -/
theorem resampling_uses_exactly_n_trials
    (stat f : List ℚ → List ℚ → ℚ) (x y : List ℚ) (σs : ℕ → List ℕ)
    (ix iy : ℕ → List ℕ) (n : ℕ) :
    (permStats stat x y σs n).length = n
    ∧ (bootStats f x y ix iy n).length = n
    ∧ (perm_test stat x y σs n).2 = permPvalue (stat x y) (permStats stat x y σs n)
    ∧ (boot_func f x y ix iy n).2 = bootCI (bootStats f x y ix iy n)
    ∧ (∀ σs2, permStats stat x y σs2 n = permStats stat x y σs n →
        (perm_test stat x y σs2 n).2 = (perm_test stat x y σs n).2) := by
  refine ⟨by simp [permStats], by simp [bootStats], rfl, rfl, ?_⟩
  intro σs2 hs
  unfold perm_test
  rw [hs]

/-- Closed instance of the trial-count theorem: two shuffle streams with the
same trials give the same p-value. -/
theorem resampling_uses_exactly_n_trials_witness :
    (perm_test wStat [1, 2] [3] wAltShuffles 2).2
      = (perm_test wStat [1, 2] [3] wShuffles 2).2 :=
  (resampling_uses_exactly_n_trials wStat wStat [1, 2] [3] wShuffles
    wShuffles wShuffles 2).2.2.2.2 wAltShuffles rfl

/-- A resample whose index list stays in bounds draws only members of the
original sample. -/
lemma resample_subset (x : List ℚ) (idx : List ℕ)
    (h : ∀ j ∈ idx, j < x.length) :
    ∀ v ∈ resample x idx, v ∈ x := by
  intro v hv
  rcases List.mem_map.mp hv with ⟨j, hj, rfl⟩
  rw [List.getD_eq_getElem x 0 (h j hj)]
  exact List.getElem_mem _

/-- Both endpoints of the bootstrap confidence interval are elements of the
bootstrap distribution. -/
lemma mem_bootCI (ps : List ℚ) (h : 0 < ps.length) :
    (bootCI ps).1 ∈ ps ∧ (bootCI ps).2 ∈ ps := by
  have hperm : (ps.insertionSort (· ≤ ·)).Perm ps := List.perm_insertionSort _ ps
  have hlen : (ps.insertionSort (· ≤ ·)).length = ps.length := hperm.length_eq
  have h1 : ps.length / 40 < ps.length := Nat.div_lt_self h (by norm_num)
  have h2 : 39 * ps.length / 40 < ps.length := by
    rw [Nat.div_lt_iff_lt_mul (by norm_num)]
    omega
  constructor
  · rw [show (bootCI ps).1 = (ps.insertionSort (· ≤ ·)).getD (ps.length / 40) 0 from rfl,
      List.getD_eq_getElem _ 0 (by rw [hlen]; exact h1)]
    exact hperm.mem_iff.mp (List.getElem_mem _)
  · rw [show (bootCI ps).2 = (ps.insertionSort (· ≤ ·)).getD (39 * ps.length / 40) 0 from rfl,
      List.getD_eq_getElem _ 0 (by rw [hlen]; exact h2)]
    exact hperm.mem_iff.mp (List.getElem_mem _)

/-- C2: `boot_func` returns the user-supplied statistic evaluated on the
original input as its first component, and as its second a confidence
interval estimated from `nBoot` recomputations of the same function on
resamples drawn with replacement: every resampled value is a member of the
original sample and both interval endpoints are members of the bootstrap
distribution. -/
theorem boot_func_stat_and_ci
    (f : List ℚ → List ℚ → ℚ) (x y : List ℚ) (ix iy : ℕ → List ℕ) (nBoot : ℕ)
    (hx : ∀ i, i < nBoot → ∀ j ∈ ix i, j < x.length)
    (hy : ∀ i, i < nBoot → ∀ j ∈ iy i, j < y.length) :
    (boot_func f x y ix iy nBoot).1 = f x y
    ∧ (boot_func f x y ix iy nBoot).2 = bootCI (bootStats f x y ix iy nBoot)
    ∧ (bootStats f x y ix iy nBoot).length = nBoot
    ∧ (∀ i, i < nBoot → (∀ v ∈ resample x (ix i), v ∈ x)
        ∧ (∀ v ∈ resample y (iy i), v ∈ y))
    ∧ (0 < nBoot →
        (boot_func f x y ix iy nBoot).2.1 ∈ bootStats f x y ix iy nBoot
        ∧ (boot_func f x y ix iy nBoot).2.2 ∈ bootStats f x y ix iy nBoot) := by
  refine ⟨rfl, rfl, by simp [bootStats], ?_, ?_⟩
  · intro i hi
    exact ⟨resample_subset x (ix i) (hx i hi), resample_subset y (iy i) (hy i hi)⟩
  · intro hn
    have hlen : (bootStats f x y ix iy nBoot).length = nBoot := by simp [bootStats]
    exact mem_bootCI _ (by rw [hlen]; exact hn)

/-- Closed instance of the bootstrap theorem at a concrete function, samples
and resampling stream. -/
theorem boot_func_stat_and_ci_witness :
    (boot_func wStat [1, 2] [3] (fun _ => [0, 0]) (fun _ => [0]) 2).1
      = wStat [1, 2] [3] :=
  (boot_func_stat_and_ci wStat [1, 2] [3] (fun _ => [0, 0]) (fun _ => [0]) 2
    (by decide) (by decide)).1

/-! ## Model fitting wrappers

pymer4/models.py (`Lm`, `Lmer` and their `.fit`) is not under src/; only
the documentation notebooks that call it are.  The definitions below are
modelled from the spec: a wrapper holds a formula and the caller's tabular
dataset, `fit` passes the dataset through unmodified to the external R
engine, and the fitted-model result object is populated by copying the
coefficient table fields out of the engine's return object.  The external
engine is a parameter; its first argument numbers successive calls, so that
a retrying wrapper would consult call numbers beyond 0. -/

/-- Modelled from the spec: the caller's tabular dataset, rows =
observations and columns = variables. -/
structure DataFrame where
  cols : List String
  rows : List (List ℚ)

/-- Modelled from the spec: the external engine's return object for a
successful fit, a coefficient table with standard errors, confidence
intervals, degrees of freedom and p-values. -/
structure EngineResult where
  coefs : List ℚ
  se : List ℚ
  ci : List (ℚ × ℚ)
  dof : List ℚ
  pvals : List ℚ

/-- Modelled from the spec: the fitted-model result object exposed to the
caller, with the same fields as the engine's return object. -/
structure FitResult where
  coefs : List ℚ
  se : List ℚ
  ci : List (ℚ × ℚ)
  dof : List ℚ
  pvals : List ℚ

/-- Modelled from the spec: an `Lm` or `Lmer` wrapper object, holding the
model formula, the caller's dataset, and the fit result once populated. -/
structure Model where
  formula : String
  data : DataFrame
  result : Option FitResult

/-- Modelled from the spec: populating the result object by copying each
field out of the engine's return object. -/
def copyOut (r : EngineResult) : FitResult :=
  { coefs := r.coefs, se := r.se, ci := r.ci, dof := r.dof, pvals := r.pvals }

/-- Modelled from the spec: `fit` makes one call to the external engine
(call number 0), passing the formula and the dataset through; on success it
copies the engine's fields into the result object, on failure it returns
the engine's error unchanged. -/
def fit (engine : ℕ → String → DataFrame → Except String EngineResult)
    (m : Model) : Except String (FitResult × Model) :=
  match engine 0 m.formula m.data with
  | .error e => .error e
  | .ok r => .ok (copyOut r, { m with result := some (copyOut r) })

/-- C5: the caller's dataset is passed through to the external engine
unmodified: after a successful fit the model's data frame, all its rows,
all its columns and every entry are unchanged. -/
theorem fit_preserves_caller_data
    (engine : ℕ → String → DataFrame → Except String EngineResult)
    (m : Model) (res : FitResult) (m2 : Model)
    (hfit : fit engine m = .ok (res, m2)) :
    m2.data = m.data
    ∧ m2.data.rows = m.data.rows
    ∧ m2.data.cols = m.data.cols
    ∧ ∀ i j, ((m2.data.rows.getD i []).getD j 0
        = (m.data.rows.getD i []).getD j 0) := by
  have hdata : m2.data = m.data := by
    unfold fit at hfit
    cases he : engine 0 m.formula m.data with
    | error e =>
      rw [he] at hfit
      exact absurd hfit (by simp)
    | ok r =>
      rw [he] at hfit
      simp only [Except.ok.injEq, Prod.mk.injEq] at hfit
      rw [← hfit.2]
  exact ⟨hdata, by rw [hdata], by rw [hdata], fun i j => by rw [hdata]⟩

/-- Concrete engine return object for the closed witnesses. -/
def wEngineResult : EngineResult :=
  { coefs := [1], se := [2], ci := [(0, 1)], dof := [3], pvals := [4] }

/-- Concrete external engine that always succeeds. -/
def wEngine : ℕ → String → DataFrame → Except String EngineResult :=
  fun _ _ _ => .ok wEngineResult

/-- Concrete wrapper object for the closed witnesses. -/
def wModel : Model :=
  { formula := "DV ~ IV", data := { cols := ["DV", "IV"], rows := [[1, 2], [3, 4]] },
    result := none }

/-- The wrapper after the concrete fit. -/
def wFitted : Model := { wModel with result := some (copyOut wEngineResult) }

/-- Closed instance of the data-preservation theorem at a concrete engine
and dataset. -/
theorem fit_preserves_caller_data_witness : wFitted.data = wModel.data :=
  (fit_preserves_caller_data wEngine wModel (copyOut wEngineResult) wFitted rfl).1

/-- C6: the fields of the fitted-model result object equal the
corresponding fields of the external engine's return object: coefficients,
standard errors, confidence intervals, degrees of freedom and p-values
round-trip without alteration. -/
theorem fit_round_trips_engine_fields
    (engine : ℕ → String → DataFrame → Except String EngineResult)
    (m : Model) (res : FitResult) (m2 : Model)
    (hfit : fit engine m = .ok (res, m2)) :
    ∃ r, engine 0 m.formula m.data = .ok r
      ∧ res.coefs = r.coefs ∧ res.se = r.se ∧ res.ci = r.ci
      ∧ res.dof = r.dof ∧ res.pvals = r.pvals := by
  unfold fit at hfit
  cases he : engine 0 m.formula m.data with
  | error e =>
    rw [he] at hfit
    exact absurd hfit (by simp)
  | ok r =>
    rw [he] at hfit
    simp only [Except.ok.injEq, Prod.mk.injEq] at hfit
    refine ⟨r, rfl, ?_, ?_, ?_, ?_, ?_⟩ <;> rw [← hfit.1] <;> rfl

/-- Closed instance of the field round-trip theorem at a concrete engine. -/
theorem fit_round_trips_engine_fields_witness :
    ∃ r, wEngine 0 wModel.formula wModel.data = .ok r
      ∧ (copyOut wEngineResult).coefs = r.coefs
      ∧ (copyOut wEngineResult).se = r.se
      ∧ (copyOut wEngineResult).ci = r.ci
      ∧ (copyOut wEngineResult).dof = r.dof
      ∧ (copyOut wEngineResult).pvals = r.pvals :=
  fit_round_trips_engine_fields wEngine wModel (copyOut wEngineResult) wFitted rfl

/-- C7: a failure of the external fitting library is surfaced to the caller
as-is: the wrapper returns exactly the engine's error, every error the
caller sees is one the engine produced, and the wrapper performs no retry:
its result depends only on the first engine call. -/
theorem fit_surfaces_engine_error
    (engine : ℕ → String → DataFrame → Except String EngineResult) (m : Model) :
    (∀ e, engine 0 m.formula m.data = .error e → fit engine m = .error e)
    ∧ (∀ e, fit engine m = .error e → engine 0 m.formula m.data = .error e)
    ∧ (∀ engine2, engine2 0 = engine 0 → fit engine2 m = fit engine m) := by
  refine ⟨?_, ?_, ?_⟩
  · intro e he
    unfold fit
    rw [he]
  · intro e he
    unfold fit at he
    cases hc : engine 0 m.formula m.data with
    | error e2 =>
      rw [hc] at he
      simp only [Except.error.injEq] at he
      rw [he]
    | ok r =>
      rw [hc] at he
      exact absurd he (by simp)
  · intro engine2 h2
    unfold fit
    rw [h2]

/-- Concrete external engine that always fails with a convergence error. -/
def wErrEngine : ℕ → String → DataFrame → Except String EngineResult :=
  fun _ _ _ => .error "convergence failure"

/-- Closed instance of the error-surfacing theorem: the caller sees exactly
the engine's convergence error. -/
theorem fit_surfaces_engine_error_witness :
    fit wErrEngine wModel = Except.error "convergence failure" :=
  (fit_surfaces_engine_error wErrEngine wModel).1 "convergence failure" rfl

/-! ## Factor contrast coding for Lmer.fit

The contrast handling of `Lmer.fit(factors=...)` delegates to R's
`factor()` and `contrasts()`; neither that code nor pymer4's marshalling of
it is under src/.  The definitions are modelled from the spec and the
categorical-predictors notebook: dummy coding with the first listed level
as reference produces one indicator term per non-reference level, and a
single custom contrast is completed by R with orthogonal contrasts for the
remaining terms, for a total of k-1 model terms for a k-level factor. -/

/-- Modelled from the spec: treatment/dummy coding of a factor.  The first
listed level is the reference; each remaining level contributes one
indicator column over the levels. -/
def dummyContrasts (levels : List String) : List (List ℚ) :=
  (levels.drop 1).map (fun l => levels.map (fun l2 => if l2 = l then 1 else 0))

/-- Modelled from the spec: the model terms R generates when a single
custom contrast is supplied for a k-level factor: the custom contrast
followed by the k-2 generated orthogonal contrasts, never more. -/
def customContrastTerms (k : ℕ) (c : List ℚ) (ortho : ℕ → List ℚ) : List (List ℚ) :=
  c :: (List.range (k - 2)).map ortho

/-- C10: a k-level factor contributes at most k-1 contrast terms: dummy
coding produces exactly k-1 indicator columns, each with one weight per
level and (for distinct levels) a single 1 marking the coded level, and a
single custom contrast is completed to exactly k-1 terms. -/
theorem factor_contrast_term_counts
    (levels : List String) (k : ℕ) (c : List ℚ) (ortho : ℕ → List ℚ)
    (hk : 2 ≤ k) :
    (dummyContrasts levels).length = levels.length - 1
    ∧ (∀ col ∈ dummyContrasts levels, col.length = levels.length)
    ∧ (levels.Nodup → ∀ col ∈ dummyContrasts levels, col.count 1 = 1)
    ∧ (customContrastTerms k c ortho).length = k - 1 := by
  refine ⟨by simp [dummyContrasts], ?_, ?_, ?_⟩
  · intro col hcol
    rcases List.mem_map.mp hcol with ⟨l, hl, rfl⟩
    simp
  · intro hnd col hcol
    rcases List.mem_map.mp hcol with ⟨l, hl, rfl⟩
    have hlm : l ∈ levels := List.mem_of_mem_drop hl
    rw [List.count_eq_countP, List.countP_map]
    have hcongr : List.countP ((fun v => v == (1 : ℚ)) ∘ fun l2 => if l2 = l then 1 else 0) levels
        = List.countP (fun l2 => l2 == l) levels := by
      apply List.countP_congr
      intro l2 _
      by_cases h : l2 = l
      · simp [h]
      · simp [h]
    rw [hcongr, ← List.count_eq_countP]
    exact List.count_eq_one_of_mem hnd hlm
  · have : ((List.range (k - 2)).map ortho).length = k - 2 := by simp
    simp only [customContrastTerms, List.length_cons, this]
    omega

/-- Closed instance of the contrast-count theorem at the three-level factor
of the categorical-predictors notebook. -/
theorem factor_contrast_term_counts_witness :
    (dummyContrasts ["1.0", "0.5", "1.5"]).length
      = (["1.0", "0.5", "1.5"] : List String).length - 1 :=
  (factor_contrast_term_counts ["1.0", "0.5", "1.5"] 3 [1, -1/2, -1/2]
    (fun _ => [0, 1, -1]) (by norm_num)).1

end Pymer4
